import Mathlib

/-!
Verification of the `filemagicext` repository (filemagicext.py, test.py).

Python strings are modelled as `List Char`.  The Python operations used by
the source map as follows:
  - `needle in hay`        → `containsSub needle hay` (contiguous substring)
  - `s.startswith(p)`      → `List.isPrefixOf p s`
  - `s == t`               → `s == t` (`BEq` on `List Char`)
The operators are applied in the same order as in the source.
-/

namespace Filemagicext

/-- The Python `needle in hay` substring test: `needle` occurs contiguously in
`hay`.  (`"" in s` is `True` for every `s`, matching Python.) -/
def containsSub (needle : List Char) : List Char → Bool
  | [] => needle.isPrefixOf []
  | c :: t => needle.isPrefixOf (c :: t) || containsSub needle t

/-- The argument of `s.startswith(p)`, flipped to read like the Python call. -/
def startswith (s p : List Char) : Bool := p.isPrefixOf s

/-- The constructor `TypeInfo.__init__(self, base_info, mime=None)` stores both arguments
(`self._base_info = base_info; self._mime = mime`). -/
structure TypeInfo where
  base_info : List Char
  mime : Option (List Char)

namespace TypeInfo

/-- Method `TypeInfo.is_word` (filemagicext.py lines 344-354). -/
def is_word (t : TypeInfo) : Bool :=
  containsSub "Microsoft Office Word".data t.base_info ||
  t.base_info == "Microsoft Word document (*.docx)".data ||
  containsSub "Microsoft Macintosh Word".data t.base_info ||
  t.base_info == "Microsoft Word 2007+".data

/-- Method `TypeInfo.is_excel` (lines 356-366). -/
def is_excel (t : TypeInfo) : Bool :=
  containsSub "Microsoft Excel".data t.base_info ||
  t.base_info == "Microsoft Excel document (*.xlsx)".data ||
  containsSub "Microsoft Macintosh Excel".data t.base_info ||
  t.base_info == "Microsoft Excel 2007+".data

/-- Method `TypeInfo.is_ppt` (lines 368-378). -/
def is_ppt (t : TypeInfo) : Bool :=
  containsSub "Microsoft Office PowerPoint".data t.base_info ||
  t.base_info == "Microsoft PowerPoint document (*.pptx)".data ||
  containsSub "Microsoft Macintosh PowerPoint".data t.base_info ||
  t.base_info == "Microsoft PowerPoint 2007+".data

/-- Method `TypeInfo.is_pdf` (lines 380-381). -/
def is_pdf (t : TypeInfo) : Bool :=
  startswith t.base_info "PDF document".data

/-- Method `TypeInfo.is_rtf` (lines 383-384). -/
def is_rtf (t : TypeInfo) : Bool :=
  startswith t.base_info "Rich Text Format".data

/-- Method `TypeInfo.is_html` (lines 386-387). -/
def is_html (t : TypeInfo) : Bool :=
  startswith t.base_info "HTML document text".data

/-- Method `TypeInfo.is_script` (lines 389-390). -/
def is_script (t : TypeInfo) : Bool :=
  containsSub "script".data t.base_info

/-- Method `TypeInfo.is_other_text` (lines 392-393). -/
def is_other_text (t : TypeInfo) : Bool :=
  containsSub "text".data t.base_info

/-- Method `TypeInfo.is_linux_executable` (lines 395-396). -/
def is_linux_executable (t : TypeInfo) : Bool :=
  containsSub "ELF".data t.base_info || containsSub "COFF".data t.base_info

/-- Method `TypeInfo.is_pe` (lines 398-404). -/
def is_pe (t : TypeInfo) : Bool :=
  containsSub " PE ".data t.base_info ||
  containsSub " PE32".data t.base_info ||
  startswith t.base_info "PE ".data ||
  startswith t.base_info "MS-DOS executable".data ||
  startswith t.base_info "Self-extracting PKZIP archive".data ||
  startswith t.base_info "Microsoft Windows Autorun file".data ||
  startswith t.base_info "x86 boot sector".data

/-- Method `TypeInfo.is_7_zip` (lines 406-407). -/
def is_7_zip (t : TypeInfo) : Bool :=
  startswith t.base_info "7-zip archive data".data

/-- Method `TypeInfo.is_rar` (lines 409-410). -/
def is_rar (t : TypeInfo) : Bool :=
  startswith t.base_info "RAR archive data".data

/-- Method `TypeInfo.is_tar` (lines 412-413). -/
def is_tar (t : TypeInfo) : Bool :=
  t.base_info == "tar archive".data

/-- Method `TypeInfo.is_other_zip` (lines 415-425). -/
def is_other_zip (t : TypeInfo) : Bool :=
  startswith t.base_info "application/zip".data ||
  startswith t.base_info "Zip archive data".data ||
  startswith t.base_info "gzip compressed data".data ||
  startswith t.base_info "Microsoft Cabinet archive".data ||
  startswith t.base_info "bzip2 compressed data".data ||
  startswith t.base_info "POSIX tar archive".data ||
  t.base_info == "InstallShield CAB".data ||
  startswith t.base_info "xar archive".data ||
  t.base_info == "xz compressed data".data ||
  startswith t.base_info "Zip64 archive data".data

end TypeInfo

/-- Claim C2: `is_word` is decided exactly by the two substring tests and the
two equality tests on the stored description string. -/
theorem is_word_characterization (t : TypeInfo) :
    t.is_word = true ↔
      (containsSub "Microsoft Office Word".data t.base_info = true ∨
       containsSub "Microsoft Macintosh Word".data t.base_info = true ∨
       t.base_info = "Microsoft Word document (*.docx)".data ∨
       t.base_info = "Microsoft Word 2007+".data) := by
  simp only [TypeInfo.is_word, Bool.or_eq_true, beq_iff_eq]
  tauto

/-- Claim C5: every category predicate reads only `_base_info`; two `TypeInfo`
objects with equal description strings agree on all fourteen predicates,
whatever their `_mime` fields hold. -/
theorem predicates_depend_only_on_base_info (t u : TypeInfo)
    (h : t.base_info = u.base_info) :
    t.is_word = u.is_word ∧ t.is_excel = u.is_excel ∧ t.is_ppt = u.is_ppt ∧
    t.is_pdf = u.is_pdf ∧ t.is_rtf = u.is_rtf ∧ t.is_html = u.is_html ∧
    t.is_script = u.is_script ∧ t.is_other_text = u.is_other_text ∧
    t.is_linux_executable = u.is_linux_executable ∧ t.is_pe = u.is_pe ∧
    t.is_7_zip = u.is_7_zip ∧ t.is_rar = u.is_rar ∧ t.is_tar = u.is_tar ∧
    t.is_other_zip = u.is_other_zip := by
  obtain ⟨tb, tm⟩ := t
  obtain ⟨ub, um⟩ := u
  cases h
  exact ⟨rfl, rfl, rfl, rfl, rfl, rfl, rfl, rfl, rfl, rfl, rfl, rfl, rfl, rfl⟩

theorem predicates_depend_only_on_base_info_witness :
    ({ base_info := "tar archive".data, mime := none } : TypeInfo).is_tar
      = ({ base_info := "tar archive".data,
           mime := some "application/x-tar".data } : TypeInfo).is_tar :=
  (predicates_depend_only_on_base_info
    { base_info := "tar archive".data, mime := none }
    { base_info := "tar archive".data, mime := some "application/x-tar".data }
    rfl).2.2.2.2.2.2.2.2.2.2.2.2.1

/-! Mutual exclusivity of the category predicates (claim C1).

The predicates decided purely by `startswith`/`==` tests against fixed
literals (`is_pdf`, `is_rtf`, `is_html`, `is_7_zip`, `is_rar`, `is_tar`,
`is_other_zip`) are pairwise exclusive because no literal of one predicate
is a prefix of a literal of another.  The substring-based predicates are
not exclusive (e.g. `is_html` and `is_other_text`). -/

theorem isPrefixOf_self (l : List Char) : l.isPrefixOf l = true := by
  induction l with
  | nil => simp
  | cons a t ih => rw [List.isPrefixOf_cons₂]; simp [ih]

theorem isPrefixOf_total : ∀ (s p q : List Char),
    p.isPrefixOf s = true → q.isPrefixOf s = true →
    p.isPrefixOf q = true ∨ q.isPrefixOf p = true := by
  intro s
  induction s with
  | nil =>
    intro p q hp hq
    cases p with
    | nil => exact Or.inl (by simp)
    | cons a as => simp [List.isPrefixOf] at hp
  | cons c t ih =>
    intro p q hp hq
    cases p with
    | nil => exact Or.inl (by simp)
    | cons a as =>
      cases q with
      | nil => exact Or.inr (by simp)
      | cons b bs =>
        rw [List.isPrefixOf_cons₂, Bool.and_eq_true, beq_iff_eq] at hp hq
        obtain ⟨hac, has⟩ := hp
        obtain ⟨hbc, hbs⟩ := hq
        rcases ih as bs has hbs with h | h
        · left
          rw [List.isPrefixOf_cons₂, Bool.and_eq_true, beq_iff_eq]
          exact ⟨hac.trans hbc.symm, h⟩
        · right
          rw [List.isPrefixOf_cons₂, Bool.and_eq_true, beq_iff_eq]
          exact ⟨hbc.trans hac.symm, h⟩

/-- Some literal of the atom list is a prefix of `s`. -/
def someAtom (atoms : List (List Char)) (s : List Char) : Bool :=
  atoms.any fun p => p.isPrefixOf s

/-- No literal of `ps` is a prefix of a literal of `qs`, nor conversely. -/
def crossFree (ps qs : List (List Char)) : Bool :=
  ps.all fun p => qs.all fun q => !(p.isPrefixOf q) && !(q.isPrefixOf p)

theorem someAtom_exclusive (ps qs : List (List Char)) (s : List Char)
    (hc : crossFree ps qs = true)
    (hp : someAtom ps s = true) (hq : someAtom qs s = true) : False := by
  simp only [someAtom, List.any_eq_true] at hp hq
  obtain ⟨p, hpmem, hps⟩ := hp
  obtain ⟨q, hqmem, hqs⟩ := hq
  simp only [crossFree, List.all_eq_true] at hc
  have h := hc p hpmem q hqmem
  rw [Bool.and_eq_true, Bool.not_eq_true', Bool.not_eq_true'] at h
  rcases isPrefixOf_total s p q hps hqs with h1 | h1
  · rw [h.1] at h1; exact Bool.false_ne_true h1
  · rw [h.2] at h1; exact Bool.false_ne_true h1

def pdfAtoms : List (List Char) := ["PDF document".data]

def rtfAtoms : List (List Char) := ["Rich Text Format".data]

def htmlAtoms : List (List Char) := ["HTML document text".data]

def sevenZipAtoms : List (List Char) := ["7-zip archive data".data]

def rarAtoms : List (List Char) := ["RAR archive data".data]

def tarAtoms : List (List Char) := ["tar archive".data]

def otherZipAtoms : List (List Char) :=
  ["application/zip".data, "Zip archive data".data, "gzip compressed data".data,
   "Microsoft Cabinet archive".data, "bzip2 compressed data".data,
   "POSIX tar archive".data, "InstallShield CAB".data, "xar archive".data,
   "xz compressed data".data, "Zip64 archive data".data]

theorem is_pdf_atom (t : TypeInfo) (h : t.is_pdf = true) :
    someAtom pdfAtoms t.base_info = true := by
  simpa [someAtom, pdfAtoms, TypeInfo.is_pdf, startswith] using h

theorem is_rtf_atom (t : TypeInfo) (h : t.is_rtf = true) :
    someAtom rtfAtoms t.base_info = true := by
  simpa [someAtom, rtfAtoms, TypeInfo.is_rtf, startswith] using h

theorem is_html_atom (t : TypeInfo) (h : t.is_html = true) :
    someAtom htmlAtoms t.base_info = true := by
  simpa [someAtom, htmlAtoms, TypeInfo.is_html, startswith] using h

theorem is_7_zip_atom (t : TypeInfo) (h : t.is_7_zip = true) :
    someAtom sevenZipAtoms t.base_info = true := by
  simpa [someAtom, sevenZipAtoms, TypeInfo.is_7_zip, startswith] using h

theorem is_rar_atom (t : TypeInfo) (h : t.is_rar = true) :
    someAtom rarAtoms t.base_info = true := by
  simpa [someAtom, rarAtoms, TypeInfo.is_rar, startswith] using h

theorem beq_imp_isPrefixOf (s l : List Char) (h : (s == l) = true) :
    l.isPrefixOf s = true := by
  rw [beq_iff_eq] at h
  rw [h]
  exact isPrefixOf_self l

theorem is_tar_atom (t : TypeInfo) (h : t.is_tar = true) :
    someAtom tarAtoms t.base_info = true := by
  have := beq_imp_isPrefixOf t.base_info "tar archive".data h
  simp [someAtom, tarAtoms, this]

theorem is_other_zip_atom (t : TypeInfo) (h : t.is_other_zip = true) :
    someAtom otherZipAtoms t.base_info = true := by
  have h1 := beq_imp_isPrefixOf t.base_info "InstallShield CAB".data
  have h2 := beq_imp_isPrefixOf t.base_info "xz compressed data".data
  simp only [TypeInfo.is_other_zip, startswith, Bool.or_eq_true] at h
  simp only [someAtom, otherZipAtoms, List.any_cons, List.any_nil,
    Bool.or_false, Bool.or_eq_true]
  tauto

/-- Number of `true` entries in a list of booleans. -/
def countTrue (l : List Bool) : Nat := (l.filter (fun b => b)).length

theorem pairwise_imp_countTrue_le_one (b1 b2 b3 b4 b5 b6 b7 : Bool) :
    ¬(b1 = true ∧ b2 = true) → ¬(b1 = true ∧ b3 = true) →
    ¬(b1 = true ∧ b4 = true) → ¬(b1 = true ∧ b5 = true) →
    ¬(b1 = true ∧ b6 = true) → ¬(b1 = true ∧ b7 = true) →
    ¬(b2 = true ∧ b3 = true) → ¬(b2 = true ∧ b4 = true) →
    ¬(b2 = true ∧ b5 = true) → ¬(b2 = true ∧ b6 = true) →
    ¬(b2 = true ∧ b7 = true) → ¬(b3 = true ∧ b4 = true) →
    ¬(b3 = true ∧ b5 = true) → ¬(b3 = true ∧ b6 = true) →
    ¬(b3 = true ∧ b7 = true) → ¬(b4 = true ∧ b5 = true) →
    ¬(b4 = true ∧ b6 = true) → ¬(b4 = true ∧ b7 = true) →
    ¬(b5 = true ∧ b6 = true) → ¬(b5 = true ∧ b7 = true) →
    ¬(b6 = true ∧ b7 = true) →
    countTrue [b1, b2, b3, b4, b5, b6, b7] ≤ 1 := by
  intro h12 h13 h14 h15 h16 h17 h23 h24 h25 h26 h27 h34 h35 h36 h37 h45 h46
    h47 h56 h57 h67
  cases b1 <;> cases b2 <;> cases b3 <;> cases b4 <;> cases b5 <;> cases b6
    <;> cases b7 <;> first | decide | simp_all

/-- Claim C1 counterexample: the description string "HTML document text"
makes both `is_html` and `is_other_text` return `True`, so the fourteen
category predicates are not pairwise exclusive as stated. -/
theorem category_predicates_not_exclusive_cex :
    ({ base_info := "HTML document text".data, mime := none } : TypeInfo).is_html
        = true ∧
    ({ base_info := "HTML document text".data,
       mime := none } : TypeInfo).is_other_text = true := by
  decide

/-- Claim C1 amended: the seven predicates decided only by prefix and
equality tests (`is_pdf`, `is_rtf`, `is_html`, `is_7_zip`, `is_rar`,
`is_tar`, `is_other_zip`) are pairwise exclusive: on any description string
at most one of them returns `True`.  (The substring-based predicates are
not exclusive; a single bucket per file comes from the first-match order
of the tally, not from predicate disjointness.) -/
theorem prefix_equality_predicates_exclusive (t : TypeInfo) :
    countTrue [t.is_pdf, t.is_rtf, t.is_html, t.is_7_zip, t.is_rar,
      t.is_tar, t.is_other_zip] ≤ 1 := by
  apply pairwise_imp_countTrue_le_one
  · rintro ⟨h1, h2⟩
    exact someAtom_exclusive pdfAtoms rtfAtoms t.base_info (by decide)
      (is_pdf_atom t h1) (is_rtf_atom t h2)
  · rintro ⟨h1, h2⟩
    exact someAtom_exclusive pdfAtoms htmlAtoms t.base_info (by decide)
      (is_pdf_atom t h1) (is_html_atom t h2)
  · rintro ⟨h1, h2⟩
    exact someAtom_exclusive pdfAtoms sevenZipAtoms t.base_info (by decide)
      (is_pdf_atom t h1) (is_7_zip_atom t h2)
  · rintro ⟨h1, h2⟩
    exact someAtom_exclusive pdfAtoms rarAtoms t.base_info (by decide)
      (is_pdf_atom t h1) (is_rar_atom t h2)
  · rintro ⟨h1, h2⟩
    exact someAtom_exclusive pdfAtoms tarAtoms t.base_info (by decide)
      (is_pdf_atom t h1) (is_tar_atom t h2)
  · rintro ⟨h1, h2⟩
    exact someAtom_exclusive pdfAtoms otherZipAtoms t.base_info (by decide)
      (is_pdf_atom t h1) (is_other_zip_atom t h2)
  · rintro ⟨h1, h2⟩
    exact someAtom_exclusive rtfAtoms htmlAtoms t.base_info (by decide)
      (is_rtf_atom t h1) (is_html_atom t h2)
  · rintro ⟨h1, h2⟩
    exact someAtom_exclusive rtfAtoms sevenZipAtoms t.base_info (by decide)
      (is_rtf_atom t h1) (is_7_zip_atom t h2)
  · rintro ⟨h1, h2⟩
    exact someAtom_exclusive rtfAtoms rarAtoms t.base_info (by decide)
      (is_rtf_atom t h1) (is_rar_atom t h2)
  · rintro ⟨h1, h2⟩
    exact someAtom_exclusive rtfAtoms tarAtoms t.base_info (by decide)
      (is_rtf_atom t h1) (is_tar_atom t h2)
  · rintro ⟨h1, h2⟩
    exact someAtom_exclusive rtfAtoms otherZipAtoms t.base_info (by decide)
      (is_rtf_atom t h1) (is_other_zip_atom t h2)
  · rintro ⟨h1, h2⟩
    exact someAtom_exclusive htmlAtoms sevenZipAtoms t.base_info (by decide)
      (is_html_atom t h1) (is_7_zip_atom t h2)
  · rintro ⟨h1, h2⟩
    exact someAtom_exclusive htmlAtoms rarAtoms t.base_info (by decide)
      (is_html_atom t h1) (is_rar_atom t h2)
  · rintro ⟨h1, h2⟩
    exact someAtom_exclusive htmlAtoms tarAtoms t.base_info (by decide)
      (is_html_atom t h1) (is_tar_atom t h2)
  · rintro ⟨h1, h2⟩
    exact someAtom_exclusive htmlAtoms otherZipAtoms t.base_info (by decide)
      (is_html_atom t h1) (is_other_zip_atom t h2)
  · rintro ⟨h1, h2⟩
    exact someAtom_exclusive sevenZipAtoms rarAtoms t.base_info (by decide)
      (is_7_zip_atom t h1) (is_rar_atom t h2)
  · rintro ⟨h1, h2⟩
    exact someAtom_exclusive sevenZipAtoms tarAtoms t.base_info (by decide)
      (is_7_zip_atom t h1) (is_tar_atom t h2)
  · rintro ⟨h1, h2⟩
    exact someAtom_exclusive sevenZipAtoms otherZipAtoms t.base_info
      (by decide) (is_7_zip_atom t h1) (is_other_zip_atom t h2)
  · rintro ⟨h1, h2⟩
    exact someAtom_exclusive rarAtoms tarAtoms t.base_info (by decide)
      (is_rar_atom t h1) (is_tar_atom t h2)
  · rintro ⟨h1, h2⟩
    exact someAtom_exclusive rarAtoms otherZipAtoms t.base_info (by decide)
      (is_rar_atom t h1) (is_other_zip_atom t h2)
  · rintro ⟨h1, h2⟩
    exact someAtom_exclusive tarAtoms otherZipAtoms t.base_info (by decide)
      (is_tar_atom t h1) (is_other_zip_atom t h2)

/-! The tally of test.py.

`method_key_map` (test.py lines 9-24) maps predicate names to counter keys;
`statistic_file_for_dict` (lines 26-34) walks the map, increments the
counter of the first predicate that answers `True` and returns, and the
`for`/`else` clause increments `others_count` when no predicate matched
(the loop has no `break`, so `else` runs exactly when the loop finishes
without a `return`).  The map entries are modelled in the order they appear
in the source literal; CPython 2 iterates a `dict` in an
implementation-defined order, and the counting invariant proved below does
not depend on the order.  The Python key `7zip_count` is rendered as the
field `sevenzip_count`. -/

/-- The counters held by the `count_dict` of test.py (a `defaultdict(int)`). -/
structure CountDict where
  word_count : Nat
  excel_count : Nat
  ppt_count : Nat
  pdf_count : Nat
  rft_count : Nat
  html_count : Nat
  script_count : Nat
  othertext_count : Nat
  linux_executable_count : Nat
  pe_count : Nat
  sevenzip_count : Nat
  rar_count : Nat
  tar_count : Nat
  otherzip_count : Nat
  others_count : Nat

/-- The method names appearing in `method_key_map`. -/
inductive MethodName
  | is_word | is_excel | is_ppt | is_pdf | is_rtf | is_html | is_script
  | is_other_text | is_linux_executable | is_pe | is_7_zip | is_rar
  | is_tar | is_other_zip
  deriving DecidableEq

/-- The entries of the `method_key_map` literal, in source order. -/
def method_key_map : List MethodName :=
  [.is_word, .is_excel, .is_ppt, .is_pdf, .is_rtf, .is_html, .is_script,
   .is_other_text, .is_linux_executable, .is_pe, .is_7_zip, .is_rar,
   .is_tar, .is_other_zip]

/-- Python `getattr(file_info, method_name)()`. -/
def callMethod (m : MethodName) (fi : TypeInfo) : Bool :=
  match m with
  | .is_word => fi.is_word
  | .is_excel => fi.is_excel
  | .is_ppt => fi.is_ppt
  | .is_pdf => fi.is_pdf
  | .is_rtf => fi.is_rtf
  | .is_html => fi.is_html
  | .is_script => fi.is_script
  | .is_other_text => fi.is_other_text
  | .is_linux_executable => fi.is_linux_executable
  | .is_pe => fi.is_pe
  | .is_7_zip => fi.is_7_zip
  | .is_rar => fi.is_rar
  | .is_tar => fi.is_tar
  | .is_other_zip => fi.is_other_zip

/-- Python `default_dict_[key] += 1` for the key `method_key_map` assigns to `m`. -/
def incrKey (m : MethodName) (d : CountDict) : CountDict :=
  match m with
  | .is_word => { d with word_count := d.word_count + 1 }
  | .is_excel => { d with excel_count := d.excel_count + 1 }
  | .is_ppt => { d with ppt_count := d.ppt_count + 1 }
  | .is_pdf => { d with pdf_count := d.pdf_count + 1 }
  | .is_rtf => { d with rft_count := d.rft_count + 1 }
  | .is_html => { d with html_count := d.html_count + 1 }
  | .is_script => { d with script_count := d.script_count + 1 }
  | .is_other_text => { d with othertext_count := d.othertext_count + 1 }
  | .is_linux_executable =>
      { d with linux_executable_count := d.linux_executable_count + 1 }
  | .is_pe => { d with pe_count := d.pe_count + 1 }
  | .is_7_zip => { d with sevenzip_count := d.sevenzip_count + 1 }
  | .is_rar => { d with rar_count := d.rar_count + 1 }
  | .is_tar => { d with tar_count := d.tar_count + 1 }
  | .is_other_zip => { d with otherzip_count := d.otherzip_count + 1 }

/-- Python `default_dict_[...] += 1` for the key `others_count` (the
`for`/`else` clause). -/
def incrOthers (d : CountDict) : CountDict :=
  { d with others_count := d.others_count + 1 }

/-- The `for` loop of `statistic_file_for_dict`: call each method in turn;
on the first `True`, increment its counter and return; if the loop runs out,
the `else` clause increments `others_count`. -/
def statisticLoop (fi : TypeInfo) (d : CountDict) :
    List MethodName → CountDict
  | [] => incrOthers d
  | m :: rest =>
      if callMethod m fi then incrKey m d else statisticLoop fi d rest

/-- Function `statistic_file_for_dict(file_info, default_dict_)` (test.py
lines 26-34). -/
def statistic_file_for_dict (file_info : TypeInfo) (d : CountDict) :
    CountDict :=
  statisticLoop file_info d method_key_map

/-- The first method of `ms` whose predicate answers `True` on `fi`. -/
def firstMatch (fi : TypeInfo) : List MethodName → Option MethodName
  | [] => none
  | m :: rest => if callMethod m fi then some m else firstMatch fi rest

/-- Sum of all fifteen counters. -/
def totalCount (d : CountDict) : Nat :=
  d.word_count + d.excel_count + d.ppt_count + d.pdf_count + d.rft_count +
  d.html_count + d.script_count + d.othertext_count +
  d.linux_executable_count + d.pe_count + d.sevenzip_count + d.rar_count +
  d.tar_count + d.otherzip_count + d.others_count

theorem totalCount_incrKey (m : MethodName) (d : CountDict) :
    totalCount (incrKey m d) = totalCount d + 1 := by
  obtain ⟨w, e, p, pd, rt, ht, sc, ot, le, pec, sz, ra, ta, oz, os⟩ := d
  cases m <;> simp [incrKey, totalCount] <;> omega

theorem totalCount_incrOthers (d : CountDict) :
    totalCount (incrOthers d) = totalCount d + 1 := by
  obtain ⟨w, e, p, pd, rt, ht, sc, ot, le, pec, sz, ra, ta, oz, os⟩ := d
  simp only [incrOthers, totalCount]
  omega

theorem statisticLoop_firstMatch (fi : TypeInfo) (d : CountDict) :
    ∀ ms : List MethodName,
      statisticLoop fi d ms
        = (match firstMatch fi ms with
           | some m => incrKey m d
           | none => incrOthers d) := by
  intro ms
  induction ms with
  | nil => rfl
  | cons m rest ih =>
    by_cases h : callMethod m fi = true <;>
      simp [statisticLoop, firstMatch, h, ih]

theorem statisticLoop_total (fi : TypeInfo) (d : CountDict) :
    ∀ ms : List MethodName,
      totalCount (statisticLoop fi d ms) = totalCount d + 1 := by
  intro ms
  induction ms with
  | nil => exact totalCount_incrOthers d
  | cons m rest ih =>
    by_cases h : callMethod m fi = true <;>
      simp [statisticLoop, h, ih, totalCount_incrKey]

/-- Claim C6: each call of `statistic_file_for_dict` increments exactly one
counter — that of the first matching predicate of `method_key_map`, or
`others_count` when no predicate matches — so the sum of all counters grows
by exactly one per classified file. -/
theorem statistic_file_for_dict_one_increment (file_info : TypeInfo)
    (d : CountDict) :
    statistic_file_for_dict file_info d
        = (match firstMatch file_info method_key_map with
           | some m => incrKey m d
           | none => incrOthers d) ∧
    totalCount (statistic_file_for_dict file_info d) = totalCount d + 1 :=
  ⟨statisticLoop_firstMatch file_info d method_key_map,
   statisticLoop_total file_info d method_key_map⟩

/-! The binding layer: class `Magic` (filemagicext.py lines 38-113).

The native library is opaque: a native identification call either returns a
description string or raises `MagicException(message)` where `message` is
the (possibly `None`) string from `magic_error`; it is modelled as an
`Except` value supplied as a parameter.  The mutex `self.lock` and the
`magic_open`/`magic_close` calls are modelled by the event traces the
methods emit. -/

/-- Flag constants (lines 285-306), the subset `Magic` uses. -/
def MAGIC_NONE : Nat := 0x000000

def MAGIC_COMPRESS : Nat := 0x000004

def MAGIC_MIME : Nat := 0x000010

def MAGIC_CONTINUE : Nat := 0x000020

def MAGIC_MIME_ENCODING : Nat := 0x000400

/-- The flag word computed by `Magic.__init__` (lines 55-64): `mime` and
`mime_encoding` form an `if`/`elif`, then `keep_going` and `uncompress` are
independent `if`s. -/
def magicInitFlags (mime mime_encoding keep_going uncompress : Bool) :
    Nat :=
  let flags := MAGIC_NONE
  let flags := if mime then flags ||| MAGIC_MIME
               else if mime_encoding then flags ||| MAGIC_MIME_ENCODING
               else flags
  let flags := if keep_going then flags ||| MAGIC_CONTINUE else flags
  if uncompress then flags ||| MAGIC_COMPRESS else flags

/-- Claim C9: `mime` takes precedence over `mime_encoding`: the
`MAGIC_MIME` bit is set exactly when `mime` is `True`, and the
`MAGIC_MIME_ENCODING` bit is set exactly when `mime` is `False` and
`mime_encoding` is `True` — in particular never when `mime` is `True`. -/
theorem magicInitFlags_mime_precedence
    (mime mime_encoding keep_going uncompress : Bool) :
    magicInitFlags mime mime_encoding keep_going uncompress &&& MAGIC_MIME
        = (if mime then MAGIC_MIME else 0) ∧
    magicInitFlags mime mime_encoding keep_going uncompress &&&
        MAGIC_MIME_ENCODING
        = (if mime = false ∧ mime_encoding = true then MAGIC_MIME_ENCODING
           else 0) := by
  cases mime <;> cases mime_encoding <;> cases keep_going <;>
    cases uncompress <;> decide

/-- The `magic_open`/`magic_close` calls observed on the native handle. -/
inductive CEvent
  | mopen
  | mclose
  deriving DecidableEq

/-- A `Magic` instance: the flag word and `self.cookie` (`None` after
`__del__` closed the handle; the stored value is the pointer `magic_open`
returned, with `0` playing `NULL`). -/
structure Magic where
  flags : Nat
  cookie : Option Nat
  deriving DecidableEq

/-- Method `Magic.__init__` (lines 44-69): compute the flags, call `magic_open`
once (the trace records it; `opened_cookie` is the pointer it returned),
store the cookie, create the lock, and load the database. -/
def Magic.init (mime mime_encoding keep_going uncompress : Bool)
    (opened_cookie : Nat) : Magic × List CEvent :=
  ({ flags := magicInitFlags mime mime_encoding keep_going uncompress,
     cookie := some opened_cookie },
   [CEvent.mopen])

/-- Python truthiness of `self.cookie` (a `c_void_p`): `None` and `NULL`
are falsy. -/
def cookieTruthy : Option Nat → Bool
  | none => false
  | some v => v != 0

/-- Method `Magic.__del__` (lines 100-113): `if self.cookie and magic_close:
magic_close(self.cookie); self.cookie = None`.  `close_available` models
whether the module-level `magic_close` is still bound (it may have been
cleared during interpreter shutdown). -/
def Magic.del (close_available : Bool) (m : Magic) : Magic × List CEvent :=
  if cookieTruthy m.cookie && close_available then
    ({ m with cookie := none }, [CEvent.mclose])
  else (m, [])

/-- Run `__del__` once per entry of `close_availables`, threading the
instance state and concatenating the event traces. -/
def Magic.delIter (m : Magic) : List Bool → Magic × List CEvent
  | [] => (m, [])
  | ca :: rest =>
      ((Magic.delIter (Magic.del ca m).1 rest).1,
       (Magic.del ca m).2 ++ (Magic.delIter (Magic.del ca m).1 rest).2)

theorem delIter_mclose_count (dels : List Bool) : ∀ m : Magic,
    (Magic.delIter m dels).2.count CEvent.mclose ≤ 1 ∧
    (cookieTruthy m.cookie = false →
      (Magic.delIter m dels).2.count CEvent.mclose = 0) := by
  induction dels with
  | nil =>
    intro m
    simp [Magic.delIter]
  | cons ca rest ih =>
    intro m
    by_cases h : (cookieTruthy m.cookie && ca) = true
    · have h0 := (ih { m with cookie := none }).2 rfl
      constructor
      · simp [Magic.delIter, Magic.del, h, List.count_append, h0]
      · intro hf
        rw [Bool.and_eq_true] at h
        rw [hf] at h
        exact absurd h.1 (by simp)
    · have := ih m
      constructor
      · simpa [Magic.delIter, Magic.del, h] using this.1
      · intro hf
        simpa [Magic.delIter, Magic.del, h] using this.2 hf

/-- Claim C7: `__init__` performs exactly one `magic_open` and stores the
cookie; however often `__del__` then runs, `magic_close` is called at most
once, because the first close sets the cookie to `None`. -/
theorem magic_open_close_lifecycle
    (mime mime_encoding keep_going uncompress : Bool) (opened_cookie : Nat)
    (dels : List Bool) :
    (Magic.init mime mime_encoding keep_going uncompress
        opened_cookie).2.count CEvent.mopen = 1 ∧
    (Magic.init mime mime_encoding keep_going uncompress
        opened_cookie).1.cookie = some opened_cookie ∧
    (Magic.delIter
        (Magic.init mime mime_encoding keep_going uncompress
          opened_cookie).1 dels).2.count CEvent.mclose ≤ 1 := by
  refine ⟨by simp [Magic.init], rfl, ?_⟩
  exact (delIter_mclose_count dels _).1

/-- Lock and native-call events emitted by `from_buffer`/`from_file`:
`acquire`/`release` of `self.lock`, and `native` for the call into the
native handle (`magic_buffer`/`magic_file`). -/
inductive MEvent
  | acquire
  | release
  | native
  deriving DecidableEq

/-- Outcome of a native identification call: `Except.ok s` — it returned
the description bytes `s`; `Except.error msg` — it raised
`MagicException(msg)`, `msg` being the possibly-`None` `magic_error`
string. -/
abbrev NativeResult := Except (Option (List Char)) (List Char)

/-- What a module method call produces: a returned string, a propagated
`MagicException`, or the `IOError`/`FileNotFoundError` of the `open()`
probe in `from_file`. -/
inductive PyResult
  | ok (s : List Char)
  | magicExc (message : Option (List Char))
  | ioError
  deriving DecidableEq

/-- Method `Magic._handle509Bug` (lines 91-98): return
`"application/octet-stream"` when the exception carries no message and the
flags include `MAGIC_MIME`; otherwise re-raise the exception. -/
def Magic.handle509Bug (m : Magic) (e_message : Option (List Char)) :
    PyResult :=
  if e_message.isNone && (m.flags &&& MAGIC_MIME != 0) then
    PyResult.ok "application/octet-stream".data
  else
    PyResult.magicExc e_message

/-- Method `Magic.from_buffer` (lines 71-79): under `with self.lock`, try the
native call; on `MagicException` fall back to `_handle509Bug`.
(`maybe_decode` is the identity on the modelled string.)  The second
component is the emitted event trace. -/
def Magic.from_buffer_run (m : Magic) (native : NativeResult) :
    PyResult × List MEvent :=
  (match native with
   | Except.ok s => PyResult.ok s
   | Except.error msg => m.handle509Bug msg,
   [MEvent.acquire, MEvent.native, MEvent.release])

/-- Method `Magic.from_file` (lines 81-89): first probe the file with `open()`
(raising `IOError` when it does not exist, before the lock is taken and
without touching the native handle), then proceed as `from_buffer`. -/
def Magic.from_file_run (m : Magic) (file_exists : Bool)
    (native : NativeResult) : PyResult × List MEvent :=
  if file_exists then
    (match native with
     | Except.ok s => PyResult.ok s
     | Except.error msg => m.handle509Bug msg,
     [MEvent.acquire, MEvent.native, MEvent.release])
  else (PyResult.ioError, [])

/-- Scan a trace tracking the lock depth; every `native` event must occur
at positive depth, i.e. between `acquire` and `release`. -/
def checkLock : Nat → List MEvent → Bool
  | _, [] => true
  | depth, MEvent.acquire :: rest => checkLock (depth + 1) rest
  | depth, MEvent.release :: rest => checkLock (depth - 1) rest
  | depth, MEvent.native :: rest =>
      decide (0 < depth) && checkLock depth rest

/-- Claim C4: whatever the outcome of the native call (and, for `from_file`,
whether the file exists), every `native` event in the traces of
`Magic.from_buffer` and `Magic.from_file` occurs while `self.lock` is
held; the native handle is never touched outside the lock. -/
theorem native_calls_under_lock (m : Magic) (file_exists : Bool)
    (native : NativeResult) :
    checkLock 0 (m.from_buffer_run native).2 = true ∧
    checkLock 0 (m.from_file_run file_exists native).2 = true := by
  cases native <;> cases file_exists <;>
    simp [Magic.from_buffer_run, Magic.from_file_run, checkLock]

/-- Claim C10: when the native call raises `MagicException(msg)`,
`from_buffer` (and `from_file` on an existing file) returns
`"application/octet-stream"` exactly when `msg` is `None` and the flags
include `MAGIC_MIME`; in every other case the same `MagicException`
propagates. -/
theorem handle509Bug_octet_stream (m : Magic) (msg : Option (List Char)) :
    ((m.from_buffer_run (Except.error msg)).1
        = PyResult.ok "application/octet-stream".data ↔
      msg = none ∧ m.flags &&& MAGIC_MIME ≠ 0) ∧
    (¬(msg = none ∧ m.flags &&& MAGIC_MIME ≠ 0) →
      (m.from_buffer_run (Except.error msg)).1 = PyResult.magicExc msg) ∧
    ((m.from_file_run true (Except.error msg)).1
        = PyResult.ok "application/octet-stream".data ↔
      msg = none ∧ m.flags &&& MAGIC_MIME ≠ 0) ∧
    (¬(msg = none ∧ m.flags &&& MAGIC_MIME ≠ 0) →
      (m.from_file_run true (Except.error msg)).1 = PyResult.magicExc msg)
    := by
  have hrun : (m.from_buffer_run (Except.error msg)).1
      = m.handle509Bug msg := rfl
  have hrun2 : (m.from_file_run true (Except.error msg)).1
      = m.handle509Bug msg := rfl
  by_cases h : (msg.isNone && (m.flags &&& MAGIC_MIME != 0)) = true
  · have hcond : msg = none ∧ m.flags &&& MAGIC_MIME ≠ 0 := by
      rw [Bool.and_eq_true, Option.isNone_iff_eq_none, bne_iff_ne] at h
      exact h
    have hres : m.handle509Bug msg
        = PyResult.ok "application/octet-stream".data := by
      unfold Magic.handle509Bug
      rw [if_pos h]
    refine ⟨?_, ?_, ?_, ?_⟩
    · rw [hrun, hres]; exact ⟨fun _ => hcond, fun _ => rfl⟩
    · intro hn; exact absurd hcond hn
    · rw [hrun2, hres]; exact ⟨fun _ => hcond, fun _ => rfl⟩
    · intro hn; exact absurd hcond hn
  · have hcond : ¬(msg = none ∧ m.flags &&& MAGIC_MIME ≠ 0) := by
      intro hc
      apply h
      rw [Bool.and_eq_true, Option.isNone_iff_eq_none, bne_iff_ne]
      exact hc
    have hres : m.handle509Bug msg = PyResult.magicExc msg := by
      unfold Magic.handle509Bug
      rw [if_neg h]
    refine ⟨?_, ?_, ?_, ?_⟩
    · rw [hrun, hres]
      constructor
      · intro he; exact absurd he (by simp)
      · intro hc; exact absurd hc hcond
    · intro _; rw [hrun, hres]
    · rw [hrun2, hres]
      constructor
      · intro he; exact absurd he (by simp)
      · intro hc; exact absurd hc hcond
    · intro _; rw [hrun2, hres]

theorem handle509Bug_octet_stream_witness :
    (({ flags := 16, cookie := some 1 } : Magic).from_buffer_run
        (Except.error none)).1
      = PyResult.ok "application/octet-stream".data :=
  (handle509Bug_octet_stream { flags := 16, cookie := some 1 }
    none).1.mpr ⟨rfl, by decide⟩

/-! The module level: `_instances`, `_get_magic_type` (lines 116-123) and
the four successive `def`s of `from_file`/`from_buffer` (lines 126, 139,
310, 316). -/

/-- The module-level `_instances` dict (one slot per `mime` key; the stored
value is the cookie identifying the `Magic` instance) together with a
counter of `magic_open` calls, so a newly constructed `Magic` receives the
fresh cookie `next_cookie`. -/
structure ModuleState where
  instances_false : Option Nat
  instances_true : Option Nat
  next_cookie : Nat
  deriving DecidableEq

/-- Python `_instances.get(mime)`. -/
def lookupInstance (mime : Bool) (st : ModuleState) : Option Nat :=
  if mime then st.instances_true else st.instances_false

/-- Function `_get_magic_type(mime)` (lines 119-123): return the stored instance if
one exists, otherwise construct `Magic(mime=mime)` (opening a fresh
handle) and store it. -/
def get_magic_type (mime : Bool) (st : ModuleState) : Nat × ModuleState :=
  match lookupInstance mime st with
  | some i => (i, st)
  | none =>
      (st.next_cookie,
       if mime then
         { st with instances_true := some st.next_cookie,
                   next_cookie := st.next_cookie + 1 }
       else
         { st with instances_false := some st.next_cookie,
                   next_cookie := st.next_cookie + 1 })

/-- Claim C3 counterexample: starting from the empty `_instances`, two
successive module-level calls for `mime=False` use the same `Magic`
instance, and only one handle is ever opened (`next_cookie` stays 1 after
the second call) — the module does cache, so it is false that "each call
obtains its identification handle afresh". -/
theorem module_caching_cex :
    (get_magic_type false
        (get_magic_type false ⟨none, none, 0⟩).2).1
      = (get_magic_type false ⟨none, none, 0⟩).1 ∧
    (get_magic_type false
        (get_magic_type false ⟨none, none, 0⟩).2).2.next_cookie = 1 := by
  decide

/-- Claim C3 amended: `_get_magic_type` caches one `Magic` instance per
`mime` key in `_instances`: when an instance is stored, it is returned
unchanged and no new handle is opened; only the first call for a given
`mime` constructs a `Magic` (opening one fresh handle) and stores it. -/
theorem get_magic_type_caches (mime : Bool) (st : ModuleState) :
    (∀ i, lookupInstance mime st = some i →
      get_magic_type mime st = (i, st)) ∧
    (lookupInstance mime st = none →
      (get_magic_type mime st).1 = st.next_cookie ∧
      (get_magic_type mime st).2.next_cookie = st.next_cookie + 1 ∧
      lookupInstance mime (get_magic_type mime st).2
        = some st.next_cookie) := by
  constructor
  · intro i h
    unfold get_magic_type
    rw [h]
  · intro h
    unfold get_magic_type
    rw [h]
    cases mime <;> simp [lookupInstance]

theorem get_magic_type_caches_witness :
    get_magic_type false ⟨some 5, none, 7⟩ = (5, ⟨some 5, none, 7⟩) :=
  (get_magic_type_caches false ⟨some 5, none, 7⟩).1 5 rfl

/-- The four module-level `def`s binding the names `from_file` and
`from_buffer`, in the order they execute when the module loads. -/
inductive PyDef
  | from_file_str
  | from_buffer_str
  | from_file_typeinfo
  | from_buffer_typeinfo
  deriving DecidableEq

/-- The sequence of `(name, def)` bindings the module body executes:
line 126 `from_file(filename, mime=False)`, line 139
`from_buffer(buffer, mime=False)`, line 310 `from_file(filename)`,
line 316 `from_buffer(buffer)`. -/
def moduleDefs : List (List Char × PyDef) :=
  [("from_file".data, PyDef.from_file_str),
   ("from_buffer".data, PyDef.from_buffer_str),
   ("from_file".data, PyDef.from_file_typeinfo),
   ("from_buffer".data, PyDef.from_buffer_typeinfo)]

/-- Execute the bindings in order: a later `def` of the same name shadows
an earlier one.  `resolve` is the binding visible after the module has
loaded. -/
def resolve (name : List Char) : Option PyDef :=
  moduleDefs.foldl (fun acc b => if b.1 == name then some b.2 else acc) none

/-- Number of declared parameters of each def (`filename`/`buffer`, plus
`mime=False` for the earlier pair). -/
def paramCount : PyDef → Nat
  | PyDef.from_file_str => 2
  | PyDef.from_buffer_str => 2
  | PyDef.from_file_typeinfo => 1
  | PyDef.from_buffer_typeinfo => 1

/-- Whether the def declares a `mime` parameter. -/
def acceptsMimeKeyword : PyDef → Bool
  | PyDef.from_file_str => true
  | PyDef.from_buffer_str => true
  | PyDef.from_file_typeinfo => false
  | PyDef.from_buffer_typeinfo => false

/-- Whether the def returns a `TypeInfo` (the line 310/316 pair) rather
than the bare description string (the line 126/139 pair). -/
def returnsTypeInfo : PyDef → Bool
  | PyDef.from_file_typeinfo => true
  | PyDef.from_buffer_typeinfo => true
  | _ => false

/-- A Python call with `npos` positional arguments and optionally the
keyword argument `mime=` raises `TypeError` when the positional arguments
overflow the parameter list or the keyword is not a declared parameter. -/
def callRaisesTypeError (d : PyDef) (npos : Nat) (mime_kw : Bool) : Bool :=
  decide (paramCount d < npos) || (mime_kw && !(acceptsMimeKeyword d))

/-- Body of the line-310 `from_file` (and line-316 `from_buffer`): wrap the
description the `Magic` instance returned in `TypeInfo(base_info=...)`. -/
def from_file_typeinfo_body (base_info : List Char) : TypeInfo :=
  { base_info := base_info, mime := none }

/-- Claim C8: after the module loads, `from_file` and `from_buffer` resolve
to the later one-parameter definitions, which wrap the description string
in a `TypeInfo`; calling `from_file(filename, mime=True)` therefore raises
`TypeError` (the earlier two-parameter, `mime`-accepting definitions are
shadowed and would have accepted it). -/
theorem from_file_shadowed_by_typeinfo_def :
    resolve "from_file".data = some PyDef.from_file_typeinfo ∧
    resolve "from_buffer".data = some PyDef.from_buffer_typeinfo ∧
    paramCount PyDef.from_file_typeinfo = 1 ∧
    paramCount PyDef.from_buffer_typeinfo = 1 ∧
    returnsTypeInfo PyDef.from_file_typeinfo = true ∧
    returnsTypeInfo PyDef.from_buffer_typeinfo = true ∧
    (∀ s : List Char, (from_file_typeinfo_body s).base_info = s) ∧
    callRaisesTypeError PyDef.from_file_typeinfo 1 true = true ∧
    callRaisesTypeError PyDef.from_file_str 1 true = false := by
  refine ⟨by decide, by decide, rfl, rfl, rfl, rfl, fun s => rfl, rfl, rfl⟩

end Filemagicext
